import Mathlib

/-!
Verification of the floor-plan editor in `src/app/Canvas/Canvas.tsx`.

The file contains two independent editor variants:
* a fixed-coordinate variant (`CanvasMy`): tables with absolute pixel
  positions, sizes derived from seat count, random non-overlapping placement;
* a percentage-coordinate, multi-floor variant (`RestaurantFloorPlan`).

Pixel and percentage coordinates are embedded as rationals (the source works
with JS numbers; the algebraic claims are about the ideal values).  The
random draws of `Math.random()` are passed in explicitly as a stream of
sample pairs, one pair per placement attempt, so the rejection-sampling loop
is a pure function of the stream.  Seat-marker geometry (which uses `Math.cos`
/ `Math.sin` / `Math.PI`) is embedded over the reals.
-/

/-- The `Table` interface of the fixed-coordinate variant
(`Canvas.tsx`, lines 7-17). -/
structure Table where
  id : String
  x : ℚ
  y : ℚ
  width : ℚ
  height : ℚ
  rotation : ℚ
  seats : ℕ
  number : String
  isSelected : Bool
deriving DecidableEq, Repr

/-- JS `String.prototype.trim()`: strip leading and trailing whitespace.
Written over the character list so that concrete instances evaluate. -/
def jsTrim (s : String) : String :=
  ⟨((s.data.dropWhile Char.isWhitespace).reverse.dropWhile Char.isWhitespace).reverse⟩

/-- Source `tablesOverlap` (`Canvas.tsx`, lines 82-93): separating-axis test on the
buffered, unrotated bounding boxes.  The source's default buffer is 1; callers
here pass it explicitly. -/
def tablesOverlap (table1 table2 : Table) (buffer : ℚ) : Bool :=
  !(decide (table1.x + table1.width + buffer < table2.x) ||
    decide (table1.x > table2.x + table2.width + buffer) ||
    decide (table1.y + table1.height + buffer < table2.y) ||
    decide (table1.y > table2.y + table2.height + buffer))

/-- One run of the body of the do-while loop in `findNonOverlappingPosition`
(`Canvas.tsx`, lines 106-117): overwrite `x` and `y` of the current position
with a fresh random draw.  `dims` is `dimensions` (canvas width, height); the
sample pair `r` stands for the two `Math.random()` calls of this attempt. -/
def drawPosition (dims : ℚ × ℚ) (r : ℚ × ℚ) (pos : Table) : Table :=
  { pos with
    x := r.1 * (dims.1 - pos.width - 50) + 50
    y := r.2 * (dims.2 - pos.height - 50) + 50 }

/-- The do-while loop of `findNonOverlappingPosition`: the body always runs
once; while the drawn position overlaps some existing table and attempts
remain, it runs again.  `fuel` is the number of attempts still allowed after
the current one (so the loop body runs at most `fuel + 1` times).  When
`fuel = 0` the source still computes `overlapping` but returns the drawn
position either way, so the check is dropped there. -/
def findLoop (dims : ℚ × ℚ) (tables : List Table) (rs : ℕ → ℚ × ℚ) :
    ℕ → ℕ → Table → Table
  | 0, attempt, pos => drawPosition dims (rs attempt) pos
  | fuel + 1, attempt, pos =>
    let position := drawPosition dims (rs attempt) pos
    if tables.any fun table => tablesOverlap position table 1 then
      findLoop dims tables rs fuel (attempt + 1) position
    else position

/-- Source `findNonOverlappingPosition` (`Canvas.tsx`, lines 96-120).  If there are
no existing tables the candidate is returned unchanged; otherwise the
rejection-sampling loop runs, with `maxAttempts` bounding the number of body
executions (the JS `do { ... } while (overlapping && attempts < maxAttempts)`
runs the body once even when `maxAttempts = 0`, matching `fuel =
maxAttempts - 1` under truncated subtraction). -/
def findNonOverlappingPosition (dims : ℚ × ℚ) (tables : List Table)
    (rs : ℕ → ℚ × ℚ) (newTable : Table) (maxAttempts : ℕ) : Table :=
  if tables.isEmpty then newTable
  else findLoop dims tables rs (maxAttempts - 1) 0 newTable

/-- The seat-count-to-size step function inside `addTable`
(`Canvas.tsx`, lines 139-156). -/
def tableSizeForSeats (seats : ℕ) : ℚ × ℚ :=
  if seats ≤ 2 then (60, 60)
  else if seats ≤ 4 then (80, 80)
  else if seats ≤ 6 then (120, 80)
  else if seats ≤ 8 then (160, 80)
  else (200, 80)

/-- Rejection outcomes of `addTable` (the source signals them via `alert`
and an early return that leaves the state untouched). -/
inductive AddTableError where
  | MissingLabel
  | DuplicateLabel
deriving DecidableEq, Repr

/-- Source `addTable` (`Canvas.tsx`, lines 123-175).  `newId` stands for the
`generateId()` call, `rs` for the random stream used by the placement
search.  On rejection the table collection is untouched (modelled by the
`error` branch carrying no new collection); on success the positioned table
is appended. -/
def addTable (tables : List Table) (tableNumber : String)
    (seatsForNewTable : ℕ) (newId : String) (dims : ℚ × ℚ)
    (rs : ℕ → ℚ × ℚ) : Except AddTableError (List Table) :=
  if jsTrim tableNumber = "" then
    .error .MissingLabel
  else if tables.any fun table => table.number == tableNumber then
    .error .DuplicateLabel
  else
    let sz := tableSizeForSeats seatsForNewTable
    let newTable : Table :=
      { id := newId, x := 0, y := 0, width := sz.1, height := sz.2
        rotation := 0, seats := seatsForNewTable, number := tableNumber
        isSelected := false }
    let positionedTable := findNonOverlappingPosition dims tables rs newTable 50
    .ok (tables ++ [positionedTable])

/-- Source `handleDragEnd` (`Canvas.tsx`, lines 212-250).  `nx, ny` are the node's
position at drag end.  If the moved bounding box would overlap any *other*
table the state is left unchanged (the source also reverts the visual node);
otherwise the table with the dragged id is replaced by the repositioned one. -/
def handleDragEnd (tables : List Table) (id : String) (nx ny : ℚ) :
    List Table :=
  match tables.find? fun table => table.id == id with
  | none => tables
  | some draggedTable =>
    let newPosition := { draggedTable with x := nx, y := ny }
    let wouldOverlap := tables.any fun table =>
      table.id != id && tablesOverlap newPosition table 1
    if wouldOverlap then tables
    else tables.map fun table => if table.id == id then newPosition else table

/-! ### Percentage-coordinate, multi-floor variant -/

/-- Source `TableShape` (`Canvas.tsx`, line 432). -/
inductive TableShape where
  | round
  | rectangle
  | square
deriving DecidableEq, Repr

/-- Source `TableSize` (`Canvas.tsx`, line 433). -/
inductive TableSize where
  | small
  | medium
  | large
deriving DecidableEq, Repr

/-- Source `TableData` (`Canvas.tsx`, lines 435-444). -/
structure TableData where
  id : String
  xPercent : ℚ
  yPercent : ℚ
  seats : ℕ
  shape : TableShape
  size : TableSize
  rotation : ℚ
  name : Option String
deriving DecidableEq, Repr

/-- Source `FloorData` (`Canvas.tsx`, lines 446-450). -/
structure FloorData where
  id : String
  name : String
  tables : List TableData
deriving DecidableEq, Repr

/-- Source `toPercent` (`Canvas.tsx`, lines 752-753). -/
def toPercent (position dimension : ℚ) : ℚ :=
  position / dimension * 100

/-- Source `fromPercent` (`Canvas.tsx`, lines 754-755). -/
def fromPercent (percent dimension : ℚ) : ℚ :=
  percent * dimension / 100

/-- Source `initialFloors` (`Canvas.tsx`, lines 768-805): the initial state of the
`floors` state hook — a single floor "Floor 1" preloaded with three sample
tables T1, T2, T3. -/
def initialFloors : List FloorData :=
  [{ id := "floor-1", name := "Floor 1"
     tables :=
      [{ id := "1", xPercent := 12.5, yPercent := 16.6, seats := 2
         shape := .round, size := .small, rotation := 0, name := some "T1" },
       { id := "2", xPercent := 31.25, yPercent := 25, seats := 4
         shape := .rectangle, size := .medium, rotation := 0, name := some "T2" },
       { id := "3", xPercent := 50, yPercent := 33.3, seats := 6
         shape := .square, size := .large, rotation := 0, name := some "T3" }] }]

/-- The state of the multi-floor store: the `floors`, `currentFloorId` and
`selectedTable` state hooks (`Canvas.tsx`, lines 808-813). -/
structure FloorStore where
  floors : List FloorData
  currentFloorId : String
  selectedTable : Option String
deriving DecidableEq, Repr

/-- The initial store state (`useState(initialFloors)`, `useState("floor-1")`,
`useState(null)`). -/
def initialStore : FloorStore :=
  { floors := initialFloors, currentFloorId := "floor-1", selectedTable := none }

/-- What `localStorage.getItem("restaurantLayout")` followed by `JSON.parse`
yields: nothing stored, a parse failure, or a parsed object whose `floors`
field may be missing. -/
structure ParsedLayout where
  name : Option String
  floors : Option (List FloorData)
deriving DecidableEq, Repr

/-- The persisted blob as the load path sees it. -/
inductive SavedBlob where
  | absent
  | malformed
  | parsed (layout : ParsedLayout)
deriving DecidableEq, Repr

/-- The load path (`Canvas.tsx`, lines 831-847 and 1070-1093): nothing stored
or a `JSON.parse` exception (caught) leaves the state unchanged, as does a
parsed object without a `floors` field; otherwise `floors` is replaced and,
when the loaded list is non-empty, `currentFloorId` becomes the first loaded
floor's id. -/
def loadSavedLayout (saved : SavedBlob) (s : FloorStore) : FloorStore :=
  match saved with
  | .absent => s
  | .malformed => s
  | .parsed layout =>
    match layout.floors with
    | none => s
    | some fs =>
      { s with floors := fs
               currentFloorId :=
                 match fs with
                 | [] => s.currentFloorId
                 | f :: _ => f.id }

/-- Source `handleAddFloor` (`Canvas.tsx`, lines 872-888).  `newFloorId` stands for
the `floor-${Date.now()}` call. -/
def handleAddFloor (s : FloorStore) (newFloorName newFloorId : String) :
    FloorStore :=
  if jsTrim newFloorName = "" then s
  else
    { s with
      floors := s.floors ++ [{ id := newFloorId, name := newFloorName, tables := [] }]
      currentFloorId := newFloorId }

/-- Source `handleSwitchFloor` (`Canvas.tsx`, lines 890-893). -/
def handleSwitchFloor (s : FloorStore) (floorId : String) : FloorStore :=
  { s with selectedTable := none, currentFloorId := floorId }

/-- Source `handleDeleteFloor` (`Canvas.tsx`, lines 895-913).  `confirmDelete` is the
user's answer to `window.confirm`.  When the deleted floor was current, the
source reads `updatedFloors[0].id`; the `[]` branch of that match is
unreachable whenever floor ids are distinct (the source would crash there). -/
def handleDeleteFloor (s : FloorStore) (floorId : String)
    (confirmDelete : Bool) : FloorStore :=
  if s.floors.length ≤ 1 then s
  else if !confirmDelete then s
  else
    let updatedFloors := s.floors.filter fun floor => floor.id != floorId
    { s with
      floors := updatedFloors
      currentFloorId :=
        if floorId == s.currentFloorId then
          match updatedFloors with
          | [] => s.currentFloorId
          | f :: _ => f.id
        else s.currentFloorId }

/-- Source `handleTableSelect` (`Canvas.tsx`, lines 916-924): toggle selection. -/
def handleTableSelectP (s : FloorStore) (id : String) : FloorStore :=
  { s with selectedTable := if some id = s.selectedTable then none else some id }

/-- Replace the current floor's tables via `f`, leaving other floors alone —
the `floors.map` pattern shared by every table-level command
(`Canvas.tsx`, lines 928-946 etc.). -/
def mapCurrentFloor (s : FloorStore) (f : List TableData → List TableData) :
    FloorStore :=
  { s with
    floors := s.floors.map fun floor =>
      if floor.id != s.currentFloorId then floor
      else { floor with tables := f floor.tables } }

/-- Source `handleTableDragEnd` (`Canvas.tsx`, lines 927-946): store the dropped
pixel position as percentages of the stage size. -/
def handleTableDragEnd (s : FloorStore) (id : String) (x y stageWidth stageHeight : ℚ) :
    FloorStore :=
  mapCurrentFloor s fun tables => tables.map fun table =>
    if table.id == id then
      { table with xPercent := toPercent x stageWidth
                   yPercent := toPercent y stageHeight }
    else table

/-- Source `handleTableRotate` (`Canvas.tsx`, lines 949-967). -/
def handleTableRotate (s : FloorStore) (id : String) (rot : ℚ) : FloorStore :=
  mapCurrentFloor s fun tables => tables.map fun table =>
    if table.id == id then { table with rotation := rot } else table

/-- Source `handleAddTable` (`Canvas.tsx`, lines 970-995).  `newId` stands for
`Date.now().toString()`; `newTableName` is the name buffer (an empty buffer
falls back to `T${tables.length + 1}`). -/
def handleAddTable (s : FloorStore) (newTableType : TableShape)
    (newTableSize : TableSize) (newTableSeats : ℕ) (newTableName newId : String) :
    FloorStore :=
  let currentTables :=
    match s.floors.find? fun floor => floor.id == s.currentFloorId with
    | some floor => floor.tables
    | none =>
      match s.floors with
      | floor :: _ => floor.tables
      | [] => []
  let tableName :=
    if newTableName = "" then "T" ++ toString (currentTables.length + 1)
    else newTableName
  let newTable : TableData :=
    { id := newId, xPercent := 50, yPercent := 50, seats := newTableSeats
      shape := newTableType, size := newTableSize, rotation := 0
      name := some tableName }
  let s' := mapCurrentFloor s fun tables => tables ++ [newTable]
  { s' with selectedTable := some newId }

/-- Source `handleRemoveTable` (`Canvas.tsx`, lines 998-1012). -/
def handleRemoveTable (s : FloorStore) : FloorStore :=
  match s.selectedTable with
  | none => s
  | some sel =>
    let s' := mapCurrentFloor s fun tables =>
      tables.filter fun table => table.id != sel
    { s' with selectedTable := none }

/-- Source `handleUpdateTableSeats` (`Canvas.tsx`, lines 1015-1030). -/
def handleUpdateTableSeats (s : FloorStore) (seats : ℕ) : FloorStore :=
  match s.selectedTable with
  | none => s
  | some sel =>
    mapCurrentFloor s fun tables => tables.map fun table =>
      if table.id == sel then { table with seats := seats } else table

/-- Source `handleUpdateTableName` (`Canvas.tsx`, lines 1033-1048). -/
def handleUpdateTableName (s : FloorStore) (name : String) : FloorStore :=
  match s.selectedTable with
  | none => s
  | some sel =>
    mapCurrentFloor s fun tables => tables.map fun table =>
      if table.id == sel then { table with name := name } else table

/-- The entity-state-store commands of the percentage variant, each carrying
the inputs the corresponding handler receives from the UI. -/
inductive Cmd where
  | addFloor (name id : String)
  | deleteFloor (id : String) (confirmDelete : Bool)
  | switchFloor (id : String)
  | selectTable (id : String)
  | addTable (shape : TableShape) (size : TableSize) (seats : ℕ) (name id : String)
  | removeTable
  | dragEnd (id : String) (x y stageWidth stageHeight : ℚ)
  | rotate (id : String) (rot : ℚ)
  | setSeats (seats : ℕ)
  | setName (name : String)
deriving DecidableEq, Repr

/-- Dispatch a command to its handler. -/
def applyCmd (c : Cmd) (s : FloorStore) : FloorStore :=
  match c with
  | .addFloor name id => handleAddFloor s name id
  | .deleteFloor id confirmDelete => handleDeleteFloor s id confirmDelete
  | .switchFloor id => handleSwitchFloor s id
  | .selectTable id => handleTableSelectP s id
  | .addTable shape size seats name id => handleAddTable s shape size seats name id
  | .removeTable => handleRemoveTable s
  | .dragEnd id x y w h => handleTableDragEnd s id x y w h
  | .rotate id rot => handleTableRotate s id rot
  | .setSeats seats => handleUpdateTableSeats s seats
  | .setName name => handleUpdateTableName s name

/-- The environment guarantee on injected ids: `handleAddFloor`'s id comes
from `Date.now()` and is fresh with respect to the floors already present.
Every other command needs nothing. -/
def cmdIdFresh (c : Cmd) (s : FloorStore) : Prop :=
  match c with
  | .addFloor _ id => id ∉ s.floors.map FloorData.id
  | _ => True

/-- States reachable from the initial store by store commands (with fresh
injected floor ids). -/
inductive Reach : FloorStore → Prop where
  | init : Reach initialStore
  | step (s : FloorStore) (c : Cmd) (hs : Reach s) (hf : cmdIdFresh c s) :
      Reach (applyCmd c s)

/-! ### Seat-marker geometry (round tables) -/

/-- Source `tableDimensions.round[size].radius` (`Canvas.tsx`, lines 476-480). -/
def roundRadius : TableSize → ℝ
  | .small => 25
  | .medium => 35
  | .large => 45

/-- Source `scaleFactor` (`Canvas.tsx`, line 511): `Math.min(stageWidth, stageHeight) / 800`. -/
noncomputable def scaleFactor (stageWidth stageHeight : ℝ) : ℝ :=
  min stageWidth stageHeight / 800

/-- The scaled radius of a round table (`Canvas.tsx`, line 537):
`radius * Math.max(0.5, scaleFactor)`. -/
noncomputable def scaledRadius (stageWidth stageHeight : ℝ) (size : TableSize) : ℝ :=
  roundRadius size * max 0.5 (scaleFactor stageWidth stageHeight)

/-- The seat marker of index `i` for a round table with `seats` seats
(`Canvas.tsx`, lines 558-570): `angle = (i * 2 * Math.PI) / seats`,
`seatDistance = scaledRadius + 10 * scaleFactor`, and the marker sits at
`(seatDistance * cos(angle), seatDistance * sin(angle))` relative to the
table's center. -/
noncomputable def roundSeatPosition (stageWidth stageHeight : ℝ)
    (size : TableSize) (seats i : ℕ) : ℝ × ℝ :=
  let angle : ℝ := ((i : ℝ) * 2 * Real.pi) / (seats : ℝ)
  let seatDistance :=
    scaledRadius stageWidth stageHeight size + 10 * scaleFactor stageWidth stageHeight
  (seatDistance * Real.cos angle, seatDistance * Real.sin angle)

/-- Euclidean distance of a point from the table center (the origin of the
table's group coordinates). -/
noncomputable def distFromCenter (p : ℝ × ℝ) : ℝ :=
  Real.sqrt (p.1 ^ 2 + p.2 ^ 2)

/-- The store invariant maintained by the percentage-variant commands:
floors are non-empty and floor ids are pairwise distinct. -/
def StoreInv (s : FloorStore) : Prop :=
  s.floors ≠ [] ∧ s.floors.Pairwise fun a b => a.id ≠ b.id

/-! ### Theorems -/

/-- C2: for every pair of rectangles and every buffer (in particular every
non-negative one), `tablesOverlap` returns `true` iff it is NOT the case that
`a.x + a.width + buffer < b.x` or `a.x > b.x + b.width + buffer` or
`a.y + a.height + buffer < b.y` or `a.y > b.y + b.height + buffer` — the
separating-axis test on the buffered, unrotated bounding boxes. -/
theorem tablesOverlap_iff_not_separated (table1 table2 : Table) (buffer : ℚ) :
    tablesOverlap table1 table2 buffer = true ↔
      ¬ (table1.x + table1.width + buffer < table2.x ∨
         table1.x > table2.x + table2.width + buffer ∨
         table1.y + table1.height + buffer < table2.y ∨
         table1.y > table2.y + table2.height + buffer) := by
  simp only [tablesOverlap, not_or]
  simp
  tauto

/-- C7: the overlap test is symmetric in its two rectangles, for every
buffer. -/
theorem tablesOverlap_symm (table1 table2 : Table) (buffer : ℚ) :
    tablesOverlap table1 table2 buffer = tablesOverlap table2 table1 buffer := by
  rw [Bool.eq_iff_iff]
  simp only [tablesOverlap, gt_iff_lt, Bool.not_eq_true', Bool.or_eq_false_iff,
    decide_eq_false_iff_not]
  tauto

/-- C8: percentage/pixel conversion round-trips exactly over the rationals,
in both directions, for every positive dimension. -/
theorem percent_roundTrip (p d : ℚ) (hd : 0 < d) :
    fromPercent (toPercent p d) d = p ∧ toPercent (fromPercent p d) d = p := by
  have hd' : d ≠ 0 := ne_of_gt hd
  constructor
  · unfold toPercent fromPercent
    field_simp
  · unfold toPercent fromPercent
    field_simp
    ring

/-- Witness for C8 at `p = 7`, `d = 4`. -/
theorem percent_roundTrip_witness :
    (0 : ℚ) < 4 ∧
      (fromPercent (toPercent 7 4) 4 = 7 ∧ toPercent (fromPercent 7 4) 4 = 7) :=
  ⟨by norm_num, percent_roundTrip 7 4 (by norm_num)⟩

/-- A random redraw touches only `x` and `y`. -/
theorem drawPosition_frame (dims : ℚ × ℚ) (r : ℚ × ℚ) (pos : Table) :
    (drawPosition dims r pos).id = pos.id ∧
    (drawPosition dims r pos).width = pos.width ∧
    (drawPosition dims r pos).height = pos.height ∧
    (drawPosition dims r pos).rotation = pos.rotation ∧
    (drawPosition dims r pos).seats = pos.seats ∧
    (drawPosition dims r pos).number = pos.number ∧
    (drawPosition dims r pos).isSelected = pos.isSelected :=
  ⟨rfl, rfl, rfl, rfl, rfl, rfl, rfl⟩

/-- The rejection loop touches only `x` and `y`. -/
theorem findLoop_frame (dims : ℚ × ℚ) (tables : List Table) (rs : ℕ → ℚ × ℚ)
    (fuel : ℕ) : ∀ (attempt : ℕ) (pos : Table),
    (findLoop dims tables rs fuel attempt pos).id = pos.id ∧
    (findLoop dims tables rs fuel attempt pos).width = pos.width ∧
    (findLoop dims tables rs fuel attempt pos).height = pos.height ∧
    (findLoop dims tables rs fuel attempt pos).rotation = pos.rotation ∧
    (findLoop dims tables rs fuel attempt pos).seats = pos.seats ∧
    (findLoop dims tables rs fuel attempt pos).number = pos.number ∧
    (findLoop dims tables rs fuel attempt pos).isSelected = pos.isSelected := by
  induction fuel with
  | zero =>
    intro attempt pos
    exact drawPosition_frame dims (rs attempt) pos
  | succ fuel ih =>
    intro attempt pos
    simp only [findLoop]
    split
    · exact ih (attempt + 1) (drawPosition dims (rs attempt) pos)
    · exact drawPosition_frame dims (rs attempt) pos

/-- C10: the table returned by `findNonOverlappingPosition` differs from the
candidate in at most `x` and `y`: `id`, `width`, `height`, `rotation`,
`seats`, `number` and `isSelected` are unchanged, for every collection of
existing tables (empty or not) and every random stream. -/
theorem findNonOverlappingPosition_frame (dims : ℚ × ℚ) (tables : List Table)
    (rs : ℕ → ℚ × ℚ) (newTable : Table) (maxAttempts : ℕ) :
    (findNonOverlappingPosition dims tables rs newTable maxAttempts).id = newTable.id ∧
    (findNonOverlappingPosition dims tables rs newTable maxAttempts).width = newTable.width ∧
    (findNonOverlappingPosition dims tables rs newTable maxAttempts).height = newTable.height ∧
    (findNonOverlappingPosition dims tables rs newTable maxAttempts).rotation = newTable.rotation ∧
    (findNonOverlappingPosition dims tables rs newTable maxAttempts).seats = newTable.seats ∧
    (findNonOverlappingPosition dims tables rs newTable maxAttempts).number = newTable.number ∧
    (findNonOverlappingPosition dims tables rs newTable maxAttempts).isSelected = newTable.isSelected := by
  unfold findNonOverlappingPosition
  split
  · exact ⟨rfl, rfl, rfl, rfl, rfl, rfl, rfl⟩
  · exact findLoop_frame dims tables rs (maxAttempts - 1) 0 newTable

/-- A single redraw with samples in `[0, 1)` lands in
`[50, width bound) × [50, height bound)` when both draw ranges are positive. -/
theorem drawPosition_mem (dims : ℚ × ℚ) (r : ℚ × ℚ) (pos : Table)
    (h1 : 0 ≤ r.1) (h2 : r.1 < 1) (h3 : 0 ≤ r.2) (h4 : r.2 < 1)
    (hw : 0 < dims.1 - pos.width - 50) (hh : 0 < dims.2 - pos.height - 50) :
    50 ≤ (drawPosition dims r pos).x ∧
    (drawPosition dims r pos).x < dims.1 - pos.width ∧
    50 ≤ (drawPosition dims r pos).y ∧
    (drawPosition dims r pos).y < dims.2 - pos.height := by
  have hx0 : 0 ≤ r.1 * (dims.1 - pos.width - 50) := mul_nonneg h1 hw.le
  have hx1 : r.1 * (dims.1 - pos.width - 50) < dims.1 - pos.width - 50 :=
    mul_lt_of_lt_one_left hw h2
  have hy0 : 0 ≤ r.2 * (dims.2 - pos.height - 50) := mul_nonneg h3 hh.le
  have hy1 : r.2 * (dims.2 - pos.height - 50) < dims.2 - pos.height - 50 :=
    mul_lt_of_lt_one_left hh h4
  refine ⟨?_, ?_, ?_, ?_⟩ <;> simp only [drawPosition] <;> linarith

/-- Every position the rejection loop can return lies in
`[50, dims.1 - width) × [50, dims.2 - height)` when the samples lie in
`[0, 1)` and both draw ranges are positive. -/
theorem findLoop_mem (dims : ℚ × ℚ) (tables : List Table) (rs : ℕ → ℚ × ℚ)
    (hr : ∀ i, 0 ≤ (rs i).1 ∧ (rs i).1 < 1 ∧ 0 ≤ (rs i).2 ∧ (rs i).2 < 1)
    (fuel : ℕ) : ∀ (attempt : ℕ) (pos : Table),
    0 < dims.1 - pos.width - 50 → 0 < dims.2 - pos.height - 50 →
    50 ≤ (findLoop dims tables rs fuel attempt pos).x ∧
    (findLoop dims tables rs fuel attempt pos).x < dims.1 - pos.width ∧
    50 ≤ (findLoop dims tables rs fuel attempt pos).y ∧
    (findLoop dims tables rs fuel attempt pos).y < dims.2 - pos.height := by
  induction fuel with
  | zero =>
    intro attempt pos hw hh
    obtain ⟨a, b, c, d⟩ := hr attempt
    exact drawPosition_mem dims (rs attempt) pos a b c d hw hh
  | succ fuel ih =>
    intro attempt pos hw hh
    simp only [findLoop]
    split
    · exact ih (attempt + 1) (drawPosition dims (rs attempt) pos) hw hh
    · obtain ⟨a, b, c, d⟩ := hr attempt
      exact drawPosition_mem dims (rs attempt) pos a b c d hw hh

/-- C1 (amended): with a non-empty existing collection, random samples in
`[0, 1)` and positive draw ranges, the returned table's position lies in the
half-open box `[50, canvasWidth - width) × [50, canvasHeight - height)` —
the right/bottom margins are 0, not 50; and with an empty collection the
candidate is returned unchanged at its default position, which may lie
outside that box. -/
theorem findNonOverlappingPosition_mem (dims : ℚ × ℚ) (tables : List Table)
    (rs : ℕ → ℚ × ℚ) (newTable : Table) (maxAttempts : ℕ)
    (hne : tables ≠ [])
    (hr : ∀ i, 0 ≤ (rs i).1 ∧ (rs i).1 < 1 ∧ 0 ≤ (rs i).2 ∧ (rs i).2 < 1)
    (hw : 0 < dims.1 - newTable.width - 50)
    (hh : 0 < dims.2 - newTable.height - 50) :
    (50 ≤ (findNonOverlappingPosition dims tables rs newTable maxAttempts).x ∧
     (findNonOverlappingPosition dims tables rs newTable maxAttempts).x <
       dims.1 - newTable.width ∧
     50 ≤ (findNonOverlappingPosition dims tables rs newTable maxAttempts).y ∧
     (findNonOverlappingPosition dims tables rs newTable maxAttempts).y <
       dims.2 - newTable.height) ∧
    ∀ cand : Table, findNonOverlappingPosition dims [] rs cand maxAttempts = cand := by
  constructor
  · obtain ⟨t, ts, rfl⟩ : ∃ t ts, tables = t :: ts := by
      cases tables with
      | nil => exact absurd rfl hne
      | cons t ts => exact ⟨t, ts, rfl⟩
    exact findLoop_mem dims (t :: ts) rs hr (maxAttempts - 1) 0 newTable hw hh
  · intro cand
    rfl

/-- Witness for C1 (amended) at a concrete canvas, candidate, collection and
sample stream. -/
theorem findNonOverlappingPosition_mem_witness :
    (50 ≤ (findNonOverlappingPosition (800, 600)
        [{ id := "far", x := 700, y := 500, width := 60, height := 60,
           rotation := 0, seats := 2, number := "1", isSelected := false }]
        (fun _ => (1/2, 1/2))
        { id := "new", x := 0, y := 0, width := 80, height := 80,
          rotation := 0, seats := 4, number := "2", isSelected := false } 50).x ∧
     (findNonOverlappingPosition (800, 600)
        [{ id := "far", x := 700, y := 500, width := 60, height := 60,
           rotation := 0, seats := 2, number := "1", isSelected := false }]
        (fun _ => (1/2, 1/2))
        { id := "new", x := 0, y := 0, width := 80, height := 80,
          rotation := 0, seats := 4, number := "2", isSelected := false } 50).x <
       (800 : ℚ) - 80 ∧
     50 ≤ (findNonOverlappingPosition (800, 600)
        [{ id := "far", x := 700, y := 500, width := 60, height := 60,
           rotation := 0, seats := 2, number := "1", isSelected := false }]
        (fun _ => (1/2, 1/2))
        { id := "new", x := 0, y := 0, width := 80, height := 80,
          rotation := 0, seats := 4, number := "2", isSelected := false } 50).y ∧
     (findNonOverlappingPosition (800, 600)
        [{ id := "far", x := 700, y := 500, width := 60, height := 60,
           rotation := 0, seats := 2, number := "1", isSelected := false }]
        (fun _ => (1/2, 1/2))
        { id := "new", x := 0, y := 0, width := 80, height := 80,
          rotation := 0, seats := 4, number := "2", isSelected := false } 50).y <
       (600 : ℚ) - 80) ∧
    ∀ cand : Table,
      findNonOverlappingPosition (800, 600) [] (fun _ => (1/2, 1/2)) cand 50 = cand :=
  findNonOverlappingPosition_mem (800, 600)
    [{ id := "far", x := 700, y := 500, width := 60, height := 60,
       rotation := 0, seats := 2, number := "1", isSelected := false }]
    (fun _ => (1/2, 1/2))
    { id := "new", x := 0, y := 0, width := 80, height := 80,
      rotation := 0, seats := 4, number := "2", isSelected := false } 50
    (by simp)
    (fun i => by norm_num)
    (by norm_num)
    (by norm_num)

/-- C1 counterexample: a draw with sample 9/10 on a 200×200 canvas with a
50-wide candidate is accepted at `x = 140`, which is outside the claimed box
`[50, canvasWidth - width - 50) = [50, 100)`; and with the empty collection
the candidate is returned at its default `x = 0 < 50`. -/
theorem findNonOverlappingPosition_counterexample :
    (findNonOverlappingPosition (200, 200)
        [{ id := "far", x := 10000, y := 10000, width := 50, height := 50,
           rotation := 0, seats := 4, number := "1", isSelected := false }]
        (fun _ => (9/10, 9/10))
        { id := "new", x := 0, y := 0, width := 50, height := 50,
          rotation := 0, seats := 4, number := "9", isSelected := false } 50).x = 140 ∧
    ¬ ((140 : ℚ) < 200 - 50 - 50) ∧
    (findNonOverlappingPosition (200, 200) [] (fun _ => (9/10, 9/10))
        { id := "new", x := 0, y := 0, width := 50, height := 50,
          rotation := 0, seats := 4, number := "9", isSelected := false } 50).x = 0 ∧
    ¬ ((50 : ℚ) ≤ 0) := by
  refine ⟨?_, by norm_num, rfl, by norm_num⟩
  norm_num [findNonOverlappingPosition, findLoop, drawPosition, tablesOverlap]

/-- C4: `addTable` rejects an empty-or-whitespace table number with
`MissingLabel` and a duplicate number with `DuplicateLabel`, in both cases
leaving the table collection untouched; otherwise exactly one new table is
appended to the unchanged collection. -/
theorem addTable_spec (tables : List Table) (tableNumber : String)
    (seatsForNewTable : ℕ) (newId : String) (dims : ℚ × ℚ) (rs : ℕ → ℚ × ℚ) :
    (jsTrim tableNumber = "" →
      addTable tables tableNumber seatsForNewTable newId dims rs =
        .error .MissingLabel) ∧
    (jsTrim tableNumber ≠ "" → (∃ t ∈ tables, t.number = tableNumber) →
      addTable tables tableNumber seatsForNewTable newId dims rs =
        .error .DuplicateLabel) ∧
    (jsTrim tableNumber ≠ "" → (∀ t ∈ tables, t.number ≠ tableNumber) →
      ∃ positioned : Table,
        addTable tables tableNumber seatsForNewTable newId dims rs =
          .ok (tables ++ [positioned])) := by
  refine ⟨fun h => ?_, fun h hdup => ?_, fun h hnone => ?_⟩
  · simp [addTable, h]
  · have hany : (tables.any fun table => table.number == tableNumber) = true := by
      obtain ⟨t, ht, hn⟩ := hdup
      exact List.any_eq_true.mpr ⟨t, ht, by simpa using hn⟩
    simp [addTable, h, hany]
  · have hany : (tables.any fun table => table.number == tableNumber) = false := by
      rw [List.any_eq_false]
      intro t ht
      simpa using hnone t ht
    refine ⟨findNonOverlappingPosition dims tables rs
      { id := newId, x := 0, y := 0,
        width := (tableSizeForSeats seatsForNewTable).1,
        height := (tableSizeForSeats seatsForNewTable).2,
        rotation := 0, seats := seatsForNewTable, number := tableNumber,
        isSelected := false } 50, ?_⟩
    simp [addTable, h, hany]

/-- Witness for C4 at a concrete successful insertion. -/
theorem addTable_spec_witness :
    jsTrim "5" ≠ "" ∧
    ∃ positioned : Table,
      addTable [] "5" 4 "table-1" (800, 600) (fun _ => (1/2, 1/2)) =
        .ok ([] ++ [positioned]) :=
  ⟨by decide,
   (addTable_spec [] "5" 4 "table-1" (800, 600) (fun _ => (1/2, 1/2))).2.2
     (by decide) (by simp)⟩

/-- In a list of tables with pairwise-distinct ids, two members with the same
id are the same table. -/
theorem mem_eq_of_pairwise_ne {l : List Table}
    (hp : l.Pairwise fun a b => a.id ≠ b.id) {a b : Table}
    (ha : a ∈ l) (hb : b ∈ l) (hid : a.id = b.id) : a = b := by
  induction l with
  | nil => exact absurd ha (List.not_mem_nil a)
  | cons c l ih =>
    obtain ⟨hc, hl⟩ := List.pairwise_cons.mp hp
    rcases List.mem_cons.mp ha with rfl | ha'
    · rcases List.mem_cons.mp hb with rfl | hb'
      · rfl
      · exact absurd hid (hc b hb')
    · rcases List.mem_cons.mp hb with rfl | hb'
      · exact absurd hid.symm (hc a ha')
      · exact ih hl ha' hb'

/-- C6: on drag end for the table `t` with the dragged id (ids pairwise
distinct), if the proposed bounding box overlaps any *other* table the move is
rejected and the collection is unchanged; otherwise it is committed, updating
exactly the dragged table's `x` and `y`. -/
theorem handleDragEnd_spec (tables : List Table) (id : String) (nx ny : ℚ)
    (t : Table)
    (hfind : (tables.find? fun table => table.id == id) = some t)
    (hids : tables.Pairwise fun a b => a.id ≠ b.id) :
    ((∃ other ∈ tables, other.id ≠ id ∧
        tablesOverlap { t with x := nx, y := ny } other 1 = true) →
      handleDragEnd tables id nx ny = tables) ∧
    ((∀ other ∈ tables, other.id ≠ id →
        tablesOverlap { t with x := nx, y := ny } other 1 = false) →
      handleDragEnd tables id nx ny =
        tables.map fun table =>
          if table.id == id then { table with x := nx, y := ny } else table) := by
  have htmem : t ∈ tables := List.mem_of_find?_eq_some hfind
  have htid : t.id = id := by simpa using List.find?_some hfind
  constructor
  · rintro ⟨other, hmem, hne, hov⟩
    have hany : (tables.any fun table =>
        table.id != id && tablesOverlap { t with x := nx, y := ny } table 1) = true :=
      List.any_eq_true.mpr ⟨other, hmem, by simp [bne_iff_ne, hne, hov]⟩
    simp only [handleDragEnd, hfind]
    rw [if_pos hany]
  · intro hno
    have hany : (tables.any fun table =>
        table.id != id && tablesOverlap { t with x := nx, y := ny } table 1) = false := by
      rw [List.any_eq_false]
      intro table hmem
      by_cases hcase : table.id = id
      · simp [hcase]
      · simp [bne_iff_ne, hcase, hno table hmem hcase]
    simp only [handleDragEnd, hfind]
    rw [if_neg (by simp [hany])]
    refine List.map_congr_left fun table hmem => ?_
    by_cases hcase : table.id = id
    · have : table = t :=
        mem_eq_of_pairwise_ne hids hmem htmem (hcase.trans htid.symm)
      simp [hcase, this]
    · simp [hcase]

/-- Witness for C6: a committed move of table "b" clear of table "a". -/
theorem handleDragEnd_spec_witness :
    handleDragEnd
      [{ id := "a", x := 0, y := 0, width := 60, height := 60,
         rotation := 0, seats := 2, number := "1", isSelected := false },
       { id := "b", x := 200, y := 0, width := 60, height := 60,
         rotation := 0, seats := 2, number := "2", isSelected := false }]
      "b" 300 0 =
    [{ id := "a", x := 0, y := 0, width := 60, height := 60,
       rotation := 0, seats := 2, number := "1", isSelected := false },
     { id := "b", x := 200, y := 0, width := 60, height := 60,
       rotation := 0, seats := 2, number := "2", isSelected := false }].map
      fun table =>
        if table.id == "b" then { table with x := 300, y := 0 } else table :=
  (handleDragEnd_spec
    [{ id := "a", x := 0, y := 0, width := 60, height := 60,
       rotation := 0, seats := 2, number := "1", isSelected := false },
     { id := "b", x := 200, y := 0, width := 60, height := 60,
       rotation := 0, seats := 2, number := "2", isSelected := false }]
    "b" 300 0
    { id := "b", x := 200, y := 0, width := 60, height := 60,
      rotation := 0, seats := 2, number := "2", isSelected := false }
    rfl
    (by decide)).2
    (by
      intro other hmem hne
      rcases List.mem_cons.mp hmem with rfl | hmem'
      · norm_num [tablesOverlap]
      · rcases List.mem_cons.mp hmem' with rfl | hmem''
        · exact absurd rfl hne
        · exact absurd hmem'' (List.not_mem_nil other))


/-- Mapping an id-preserving function over the floors keeps the store
invariant's two components. -/
theorem floors_map_inv (s : FloorStore) (g : FloorData → FloorData)
    (hid : ∀ fl, (g fl).id = fl.id) (h : StoreInv s) :
    s.floors.map g ≠ [] ∧ (s.floors.map g).Pairwise fun a b => a.id ≠ b.id := by
  obtain ⟨hne, hp⟩ := h
  constructor
  · simpa using hne
  · rw [List.pairwise_map]
    refine hp.imp fun {a b} hab => ?_
    rw [hid a, hid b]
    exact hab

/-- Source `mapCurrentFloor` keeps every floor's id (it only rewrites `tables`),
hence preserves the store invariant. -/
theorem mapCurrentFloor_inv (s : FloorStore) (f : List TableData → List TableData)
    (h : StoreInv s) : StoreInv (mapCurrentFloor s f) :=
  floors_map_inv s _ (fun fl => by split <;> rfl) h

/-- Filtering out one id from a pairwise-distinct floor list removes at most
one element. -/
theorem filter_id_ne_length {l : List FloorData} (x : String)
    (hp : l.Pairwise fun a b => a.id ≠ b.id) :
    l.length - 1 ≤ (l.filter fun fl => fl.id != x).length := by
  induction l with
  | nil => simp
  | cons a l ih =>
    obtain ⟨ha, hl⟩ := List.pairwise_cons.mp hp
    by_cases hax : a.id = x
    · have hfl : (l.filter fun fl => fl.id != x) = l := by
        refine List.filter_eq_self.mpr fun b hb => ?_
        simp only [bne_iff_ne, ne_eq, decide_eq_true_eq]
        exact fun hbx => (ha b hb) (hax.trans hbx.symm)
      simp [List.filter_cons, hax, hfl]
    · have h1 := ih hl
      have hcond : (a.id != x) = true := by simp [bne_iff_ne, hax]
      simp only [List.filter_cons, hcond, if_true, List.length_cons]
      omega

/-- Source `handleDeleteFloor` preserves the store invariant. -/
theorem handleDeleteFloor_inv (s : FloorStore) (floorId : String)
    (confirmDelete : Bool) (h : StoreInv s) :
    StoreInv (handleDeleteFloor s floorId confirmDelete) := by
  obtain ⟨hne, hp⟩ := h
  unfold handleDeleteFloor
  split
  · exact ⟨hne, hp⟩
  · split
    · exact ⟨hne, hp⟩
    · next hlen _ =>
      constructor
      · have h1 := filter_id_ne_length floorId hp
        have h2 : 2 ≤ s.floors.length := by omega
        have h3 : 0 < (s.floors.filter fun fl => fl.id != floorId).length := by omega
        simpa using List.ne_nil_of_length_pos h3
      · exact hp.filter _

/-- Source `handleAddFloor` with a fresh floor id preserves the store invariant. -/
theorem handleAddFloor_inv (s : FloorStore) (name id : String)
    (hfresh : id ∉ s.floors.map FloorData.id) (h : StoreInv s) :
    StoreInv (handleAddFloor s name id) := by
  obtain ⟨hne, hp⟩ := h
  unfold handleAddFloor
  split
  · exact ⟨hne, hp⟩
  · constructor
    · simp
    · rw [List.pairwise_append]
      refine ⟨hp, List.pairwise_singleton _ _, ?_⟩
      intro a ha b hb
      simp only [List.mem_singleton] at hb
      subst hb
      intro hab
      exact hfresh (List.mem_map.mpr ⟨a, ha, hab⟩)

/-- Every store command preserves the invariant, given fresh injected floor
ids. -/
theorem applyCmd_inv (c : Cmd) (s : FloorStore) (hf : cmdIdFresh c s)
    (h : StoreInv s) : StoreInv (applyCmd c s) := by
  cases c with
  | addFloor name id => exact handleAddFloor_inv s name id hf h
  | deleteFloor id confirmDelete => exact handleDeleteFloor_inv s id confirmDelete h
  | switchFloor id => exact h
  | selectTable id => exact h
  | addTable shape size seats name id =>
    exact floors_map_inv s _ (fun fl => by split <;> rfl) h
  | removeTable =>
    simp only [applyCmd, handleRemoveTable]
    cases hsel : s.selectedTable with
    | none => exact h
    | some sel => exact floors_map_inv s _ (fun fl => by split <;> rfl) h
  | dragEnd id x y w hh =>
    exact floors_map_inv s _ (fun fl => by split <;> rfl) h
  | rotate id rot =>
    exact floors_map_inv s _ (fun fl => by split <;> rfl) h
  | setSeats seats =>
    simp only [applyCmd, handleUpdateTableSeats]
    cases hsel : s.selectedTable with
    | none => exact h
    | some sel => exact floors_map_inv s _ (fun fl => by split <;> rfl) h
  | setName name =>
    simp only [applyCmd, handleUpdateTableName]
    cases hsel : s.selectedTable with
    | none => exact h
    | some sel => exact floors_map_inv s _ (fun fl => by split <;> rfl) h

/-- Every reachable store state satisfies the invariant. -/
theorem reach_inv (s : FloorStore) (h : Reach s) : StoreInv s := by
  induction h with
  | init =>
    constructor
    · simp [initialStore, initialFloors]
    · simp [initialStore, initialFloors]
  | step s c hs hf ih => exact applyCmd_inv c s hf ih

/-- C5: every reachable store state has at least one floor; `removeFloor` on a
single-floor store is rejected and leaves the whole state (in particular the
floors) unchanged; and deleting the currently active floor switches
`currentFloorId` to the first remaining floor. -/
theorem floor_count_invariant (s : FloorStore) :
    (Reach s → s.floors ≠ []) ∧
    (s.floors.length = 1 → ∀ (floorId : String) (confirmDelete : Bool),
      handleDeleteFloor s floorId confirmDelete = s) ∧
    (∀ (floorId : String) (f : FloorData) (rest : List FloorData),
      1 < s.floors.length → floorId = s.currentFloorId →
      (s.floors.filter fun fl => fl.id != floorId) = f :: rest →
      (handleDeleteFloor s floorId true).currentFloorId = f.id) := by
  refine ⟨fun h => (reach_inv s h).1, fun hlen floorId confirmDelete => ?_, ?_⟩
  · unfold handleDeleteFloor
    rw [if_pos (by omega)]
  · intro floorId f rest hlen hcur hfilter
    unfold handleDeleteFloor
    rw [if_neg (by omega)]
    simp only [Bool.not_true, Bool.false_eq_true, if_false]
    rw [hfilter]
    simp [hcur]

/-- Witness for C5: the initial store, and a concrete two-floor store whose
active floor is deleted. -/
theorem floor_count_invariant_witness :
    initialStore.floors ≠ [] ∧
    handleDeleteFloor initialStore "floor-1" true = initialStore ∧
    (handleDeleteFloor
      { floors := [{ id := "floor-1", name := "Floor 1", tables := [] },
                   { id := "floor-2", name := "Mezzanine", tables := [] }],
        currentFloorId := "floor-2", selectedTable := none }
      "floor-2" true).currentFloorId = "floor-1" :=
  ⟨(floor_count_invariant initialStore).1 Reach.init,
   (floor_count_invariant initialStore).2.1 (by simp [initialStore, initialFloors])
     "floor-1" true,
   (floor_count_invariant
      { floors := [{ id := "floor-1", name := "Floor 1", tables := [] },
                   { id := "floor-2", name := "Mezzanine", tables := [] }],
        currentFloorId := "floor-2", selectedTable := none }).2.2
     "floor-2" { id := "floor-1", name := "Floor 1", tables := [] } []
     (by simp) rfl (by simp)⟩

/-- C3 counterexample: with nothing persisted the store keeps its default
state, whose single floor "Floor 1" holds three preset tables, not zero. -/
theorem load_fallback_counterexample :
    loadSavedLayout .absent initialStore = initialStore ∧
    initialStore.floors.map (fun floor => floor.tables.length) = [3] ∧
    ¬ initialStore.floors.map (fun floor => floor.tables.length) = [0] := by
  refine ⟨rfl, rfl, by simp [initialStore, initialFloors]⟩

/-- C3 (amended): an absent blob, a malformed blob (the parse exception is
caught) and a parsed blob without a `floors` field all leave the store
unchanged, so it falls back to the default state: exactly one floor named
"Floor 1" containing the three preset sample tables. -/
theorem load_fallback (s : FloorStore) (layout : ParsedLayout)
    (hfl : layout.floors = none) :
    loadSavedLayout .absent s = s ∧
    loadSavedLayout .malformed s = s ∧
    loadSavedLayout (.parsed layout) s = s ∧
    initialStore.floors.length = 1 ∧
    initialStore.floors.map FloorData.name = ["Floor 1"] ∧
    initialStore.floors.map (fun floor => floor.tables.length) = [3] := by
  refine ⟨rfl, rfl, ?_, rfl, rfl, rfl⟩
  simp [loadSavedLayout, hfl]

/-- Witness for C3 (amended) at the empty parsed blob and the initial store. -/
theorem load_fallback_witness :
    loadSavedLayout .absent initialStore = initialStore ∧
    loadSavedLayout .malformed initialStore = initialStore ∧
    loadSavedLayout (.parsed { name := none, floors := none }) initialStore =
      initialStore ∧
    initialStore.floors.length = 1 ∧
    initialStore.floors.map FloorData.name = ["Floor 1"] ∧
    initialStore.floors.map (fun floor => floor.tables.length) = [3] :=
  load_fallback initialStore { name := none, floors := none } rfl

/-- C9 (amended): for a medium round table with 4 seats, when the stage
scale factor is at least 0.5 the four seat markers sit at angles 0°, 90°,
180°, 270° and each at distance `35*scale + 10*scale` from the table center
(in general the distance is `35*max(0.5, scale) + 10*scale`); and for every
size and seat count, seat `i` lies at angle `i * 2π / seatCount` on the
circle of radius `scaledRadius + 10*scale`. -/
theorem roundSeat_medium4 (w h : ℝ) (hsf : 1 / 2 ≤ scaleFactor w h) :
    roundSeatPosition w h .medium 4 0 =
      (35 * scaleFactor w h + 10 * scaleFactor w h, 0) ∧
    roundSeatPosition w h .medium 4 1 =
      (0, 35 * scaleFactor w h + 10 * scaleFactor w h) ∧
    roundSeatPosition w h .medium 4 2 =
      (-(35 * scaleFactor w h + 10 * scaleFactor w h), 0) ∧
    roundSeatPosition w h .medium 4 3 =
      (0, -(35 * scaleFactor w h + 10 * scaleFactor w h)) ∧
    (∀ i : ℕ, i < 4 → distFromCenter (roundSeatPosition w h .medium 4 i) =
      35 * scaleFactor w h + 10 * scaleFactor w h) ∧
    (∀ (size : TableSize) (n i : ℕ),
      roundSeatPosition w h size n i =
        ((scaledRadius w h size + 10 * scaleFactor w h) *
           Real.cos ((i : ℝ) * 2 * Real.pi / (n : ℝ)),
         (scaledRadius w h size + 10 * scaleFactor w h) *
           Real.sin ((i : ℝ) * 2 * Real.pi / (n : ℝ)))) := by
  have hmax : max (0.5 : ℝ) (scaleFactor w h) = scaleFactor w h := by
    rw [max_eq_right]
    linarith
  have hrad : scaledRadius w h .medium = 35 * scaleFactor w h := by
    rw [scaledRadius, hmax]
    norm_num [roundRadius]
  have ha0 : ((0 : ℕ) : ℝ) * 2 * Real.pi / (4 : ℕ) = 0 := by
    push_cast
    ring
  have ha1 : ((1 : ℕ) : ℝ) * 2 * Real.pi / (4 : ℕ) = Real.pi / 2 := by
    push_cast
    ring
  have ha2 : ((2 : ℕ) : ℝ) * 2 * Real.pi / (4 : ℕ) = Real.pi := by
    push_cast
    ring
  have ha3 : ((3 : ℕ) : ℝ) * 2 * Real.pi / (4 : ℕ) = Real.pi + Real.pi / 2 := by
    push_cast
    ring
  have hd : 0 ≤ 35 * scaleFactor w h + 10 * scaleFactor w h := by linarith
  have hp0 : roundSeatPosition w h .medium 4 0 =
      (35 * scaleFactor w h + 10 * scaleFactor w h, 0) := by
    rw [roundSeatPosition]
    simp only [ha0, Real.cos_zero, Real.sin_zero, hrad]
    ring_nf
  have hp1 : roundSeatPosition w h .medium 4 1 =
      (0, 35 * scaleFactor w h + 10 * scaleFactor w h) := by
    rw [roundSeatPosition]
    simp only [ha1, Real.cos_pi_div_two, Real.sin_pi_div_two, hrad]
    ring_nf
  have hp2 : roundSeatPosition w h .medium 4 2 =
      (-(35 * scaleFactor w h + 10 * scaleFactor w h), 0) := by
    rw [roundSeatPosition]
    simp only [ha2, Real.cos_pi, Real.sin_pi, hrad]
    ring_nf
  have hp3 : roundSeatPosition w h .medium 4 3 =
      (0, -(35 * scaleFactor w h + 10 * scaleFactor w h)) := by
    rw [roundSeatPosition]
    simp only [ha3, Real.cos_add, Real.sin_add, Real.cos_pi, Real.sin_pi,
      Real.cos_pi_div_two, Real.sin_pi_div_two, hrad]
    ring_nf
  have key : ∀ z : ℝ × ℝ, z.1 ^ 2 + z.2 ^ 2 =
      (35 * scaleFactor w h + 10 * scaleFactor w h) ^ 2 →
      distFromCenter z = 35 * scaleFactor w h + 10 * scaleFactor w h := by
    intro z hz
    rw [distFromCenter, hz, Real.sqrt_sq hd]
  refine ⟨hp0, hp1, hp2, hp3, ?_, fun size n i => rfl⟩
  intro i hi
  interval_cases i
  · rw [hp0]
    exact key _ (by simp)
  · rw [hp1]
    exact key _ (by simp)
  · rw [hp2]
    exact key _ (by simp; ring)
  · rw [hp3]
    exact key _ (by simp; ring)

/-- Witness for C9 (amended) at an 800×800 stage (scale factor 1). -/
theorem roundSeat_medium4_witness :
    roundSeatPosition 800 800 .medium 4 1 =
      (0, 35 * scaleFactor 800 800 + 10 * scaleFactor 800 800) :=
  (roundSeat_medium4 800 800 (by rw [scaleFactor, min_self]; norm_num)).2.1

/-- C9 counterexample: on a 200×200 stage the scale factor is 1/4 < 0.5, the
radius clamp kicks in, and seat 0 of a medium 4-seat round table sits at
distance 20 from the center while `35*scale + 10*scale` is 45/4 — the claimed
distance formula fails below the clamp. -/
theorem roundSeat_distance_counterexample :
    roundSeatPosition 200 200 .medium 4 0 = (20, 0) ∧
    35 * scaleFactor 200 200 + 10 * scaleFactor 200 200 ≠ 20 := by
  have hsf : scaleFactor 200 200 = 1 / 4 := by
    rw [scaleFactor, min_self]
    norm_num
  have hmax : max (0.5 : ℝ) (1 / 4 : ℝ) = 0.5 := max_eq_left (by norm_num)
  have h0 : ((0 : ℕ) : ℝ) * 2 * Real.pi / ((4 : ℕ) : ℝ) = 0 := by
    push_cast
    ring
  constructor
  · rw [roundSeatPosition]
    simp only [h0, Real.cos_zero, Real.sin_zero, scaledRadius, roundRadius, hsf, hmax,
      mul_one, mul_zero]
    norm_num
  · rw [hsf]
    norm_num
